import Mathlib

set_option autoImplicit false

/-
Shallow embedding of the hotel-booking web application (app.py, models.py):
the data model (models.py plus the Hotel/hotel_id parts referenced by
app.py), the booking engine (`book_room`, `delete_booking`), the
availability count in `index`, the login check, and the admin hotel/room
CRUD handlers.  Dates are calendar triples ordered lexicographically,
mirroring Python `datetime.date`; the database session is a list of rows.
-/

namespace HotelBooking

/-- Calendar date, as Python `datetime.date`: year, month, day. -/
structure Date where
  year : Nat
  month : Nat
  day : Nat
deriving DecidableEq, Repr

/-- Gregorian leap-year rule used by `datetime`. -/
def isLeapYear (y : Nat) : Bool :=
  y % 4 == 0 && (y % 100 != 0 || y % 400 == 0)

/-- Days in a month of a given year (Gregorian calendar). -/
def daysInMonth (y m : Nat) : Nat :=
  if m == 2 then (if isLeapYear y then 29 else 28)
  else if m == 4 || m == 6 || m == 9 || m == 11 then 30
  else 31

/-- A valid `datetime.date`: year in `1..9999`, month `1..12`, day in range. -/
def validDate (y m d : Nat) : Prop :=
  1 ≤ y ∧ y ≤ 9999 ∧ 1 ≤ m ∧ m ≤ 12 ∧ 1 ≤ d ∧ d ≤ daysInMonth y m

instance (y m d : Nat) : Decidable (validDate y m d) := by
  unfold validDate; exact inferInstance

/-- Strict order on dates: lexicographic on (year, month, day), exactly how
Python compares `date` values. -/
def Date.lt (a b : Date) : Prop :=
  a.year < b.year ∨
    (a.year = b.year ∧
      (a.month < b.month ∨ (a.month = b.month ∧ a.day < b.day)))

instance (a b : Date) : Decidable (Date.lt a b) := by
  unfold Date.lt; exact inferInstance

/-- Non-strict order on dates. -/
def Date.le (a b : Date) : Prop := Date.lt a b ∨ a = b

instance (a b : Date) : Decidable (Date.le a b) := by
  unfold Date.le; exact inferInstance

/-- Split a character list at every `-`, keeping empty fields, as Python
`s.split("-")` does on the date strings. -/
def splitDash : List Char → List (List Char)
  | [] => [[]]
  | c :: rest =>
    if c = '-' then [] :: splitDash rest
    else
      match splitDash rest with
      | [] => [[c]]
      | f :: fs => (c :: f) :: fs

/-- Decimal value of a digit character list. -/
def digitsVal (cs : List Char) : Nat :=
  cs.foldl (fun n c => n * 10 + (c.toNat - 48)) 0

/-- The `%Y` field of CPython `strptime`: its pattern is exactly four
digits. -/
def matchYear (cs : List Char) : Option Nat :=
  if cs.length = 4 ∧ cs.all Char.isDigit = true then some (digitsVal cs)
  else none

/-- The `%m` field of CPython `strptime`: its pattern
`1[0-2]|0[1-9]|[1-9]` consumes, up to the following literal `-`, exactly
the one- or two-digit strings with value 1..12. -/
def matchMonth (cs : List Char) : Option Nat :=
  if (1 ≤ cs.length ∧ cs.length ≤ 2 ∧ cs.all Char.isDigit = true)
      ∧ 1 ≤ digitsVal cs ∧ digitsVal cs ≤ 12 then
    some (digitsVal cs)
  else none

/-- The `%d` field of CPython `strptime`: its pattern
`3[01]|[12]\d|0[1-9]|[1-9]| [1-9]` consumes, up to the end of the string,
exactly the one- or two-digit strings with value 1..31 plus the
space-padded single digits `" 1"`..`" 9"`. -/
def matchDay (cs : List Char) : Option Nat :=
  if (1 ≤ cs.length ∧ cs.length ≤ 2 ∧ cs.all Char.isDigit = true)
      ∧ 1 ≤ digitsVal cs ∧ digitsVal cs ≤ 31 then
    some (digitsVal cs)
  else
    match cs with
    | [' ', c] =>
      if c.isDigit = true ∧ c ≠ '0' then some (c.toNat - 48) else none
    | _ => none

/-- `datetime.strptime(s, "%Y-%m-%d").date()` on an optional form field:
a missing field (`None`) raises `TypeError` and a malformed string raises
`ValueError`; both are caught by the caller, so both are `none` here.
The literal `-` separators split the string (no field pattern can consume
a `-`), the field patterns are as above, the regex must consume the whole
string, and `date()` then requires a valid calendar date with year at
least 1. -/
def parseDate : Option String → Option Date
  | none => none
  | some s =>
    match splitDash s.data with
    | [ys, ms, ds] =>
      match matchYear ys, matchMonth ms, matchDay ds with
      | some y, some m, some d =>
        if validDate y m d then some ⟨y, m, d⟩ else none
      | _, _, _ => none
    | _ => none

/-- Cumulative days before month `m` in year `y`. -/
def daysBeforeMonth (y m : Nat) : Nat :=
  (List.range (m - 1)).foldl (fun acc i => acc + daysInMonth y (i + 1)) 0

/-- Proleptic-Gregorian ordinal of a date, as `date.toordinal()`. -/
def Date.toOrdinal (d : Date) : Nat :=
  365 * (d.year - 1) + (d.year - 1) / 4 - (d.year - 1) / 100 + (d.year - 1) / 400
    + daysBeforeMonth d.year d.month + d.day

/-- `(a - b).days` for Python dates. -/
def dateDiffDays (a b : Date) : Int :=
  (Date.toOrdinal a : Int) - (Date.toOrdinal b : Int)

/-- `User` row (models.py): id, email, name, password hash, admin flag.
The `created_at` timestamp column carries no logic and is omitted. -/
structure User where
  id : Nat
  email : String
  name : String
  password_hash : String
  is_admin : Bool
deriving DecidableEq, Repr

/-- `Room` row (models.py): id, unique number, room type, optional
description, nightly price, capacity.  The `hotel_id` column is modelled
from the spec: models.py does not declare it, but app.py filters on
`Room.hotel_id`, seeds rooms with it and its migration adds the column, and
the spec makes the hotel reference a required Room field. -/
structure Room where
  id : Nat
  number : String
  hotel_id : Nat
  room_type : String
  description : Option String
  price_per_night : Int
  capacity : Nat
deriving DecidableEq, Repr

/-- Modelled from the spec: the `Hotel` model class is missing from
models.py, though app.py imports it from there and uses its identity,
unique required name and optional city.  Fields follow spec §3 and the
app.py call sites (`Hotel(name=..., city=...)`, `hotel.id`). -/
structure Hotel where
  id : Nat
  name : String
  city : Option String
deriving DecidableEq, Repr

/-- `Booking` row (models.py): id, owning user, room, half-open stay
interval `[check_in, check_out)`, and total price; `created_at` omitted. -/
structure Booking where
  id : Nat
  user_id : Nat
  room_id : Nat
  check_in : Date
  check_out : Date
  total_price : Int
deriving DecidableEq, Repr

/-- Outcome of the `book_room` POST handler, one constructor per distinct
user-facing rejection (flash message) plus success. -/
inductive BookResult where
  | invalidDateFormat
  | invalidDateRange
  | dateRangeConflict
  | success
deriving DecidableEq, Repr

/-- The overlap filter of `book_room`:
`Booking.room_id == room.id, Booking.check_in < check_out,
Booking.check_out > check_in`. -/
def overlapsB (b : Booking) (roomId : Nat) (ci co : Date) : Bool :=
  b.room_id == roomId && decide (Date.lt b.check_in co)
    && decide (Date.lt ci b.check_out)

/-- The POST branch of `book_room` (app.py): parse both dates (failure of
either is flashed as bad dates), reject `check_in >= check_out`, reject an
overlap with an existing booking for the room, otherwise insert a booking
priced at nights times the nightly price.  The booking list plays the
database; `newId` is the autoincremented primary key. -/
def book_room (bookings : List Booking) (currentUserId : Nat) (room : Room)
    (checkInStr checkOutStr : Option String) (newId : Nat) :
    BookResult × List Booking :=
  match parseDate checkInStr, parseDate checkOutStr with
  | some ci, some co =>
    if Date.le co ci then (.invalidDateRange, bookings)
    else if bookings.any (fun b => overlapsB b room.id ci co) then
      (.dateRangeConflict, bookings)
    else
      (.success,
        bookings ++ [⟨newId, currentUserId, room.id, ci, co,
          dateDiffDays co ci * room.price_per_night⟩])
  | _, _ => (.invalidDateFormat, bookings)

/-- Outcome of the `delete_booking` handler: the missing and the
foreign-owned cases share the single not-found flash. -/
inductive CancelResult where
  | notFound
  | deleted
deriving DecidableEq, Repr

/-- `delete_booking` (app.py): look up the booking by id and owner
(`filter_by(id=booking_id, user_id=current_user.id).first()`); if none
matches, flash not-found and change nothing, otherwise delete the row. -/
def delete_booking (bookings : List Booking) (bookingId currentUserId : Nat) :
    CancelResult × List Booking :=
  match bookings.find? (fun b => b.id == bookingId && b.user_id == currentUserId) with
  | none => (.notFound, bookings)
  | some b => (.deleted, bookings.filter (fun x => x.id != b.id))

/-- Two bookings claim overlapping half-open intervals on the same room. -/
def overlapIntervals (b1 b2 : Booking) : Prop :=
  b1.room_id = b2.room_id ∧ Date.lt b1.check_in b2.check_out
    ∧ Date.lt b2.check_in b1.check_out

/-- Per-room pairwise non-overlap of the stored bookings. -/
def noOverlaps (bookings : List Booking) : Prop :=
  bookings.Pairwise (fun b1 b2 => ¬ overlapIntervals b1 b2)

/-- Characters removed by Python `str.strip()` on form input. -/
def isStripWS (c : Char) : Bool :=
  c == ' ' || c == '\t' || c == '\n' || c == '\r'

/-- `str.strip()` on the underlying characters. -/
def pyStripChars (cs : List Char) : List Char :=
  ((cs.dropWhile isStripWS).reverse.dropWhile isStripWS).reverse

/-- Python `s.strip()`. -/
def pyStrip (s : String) : String := ⟨pyStripChars s.data⟩

/-- Python `s.lower()` (ASCII case folding suffices for the claims). -/
def pyLower (s : String) : String := ⟨s.data.map Char.toLower⟩

/-- Outcome of the `login` POST handler. -/
inductive LoginResult where
  | success (userId : Nat)
  | failure (message : String)
deriving DecidableEq, Repr

/-- The one generic login-failure flash of app.py
(`Неверный email или пароль`,
"invalid email or password"). -/
def generic_login_failure : String := "Неверный email или пароль"

/-- The POST branch of `login` (app.py): case-fold and strip the submitted
email, look the user up by email, verify the password against the stored
hash (`check_password_hash`, treated as the black-box `checkPassword`), and
on any failure flash the single generic message. -/
def login (checkPassword : String → String → Bool) (users : List User)
    (emailRaw password : String) : LoginResult :=
  match users.find? (fun u => u.email == pyLower (pyStrip emailRaw)) with
  | some u =>
    if checkPassword u.password_hash password then .success u.id
    else .failure generic_login_failure
  | none => .failure generic_login_failure

/-- The batch active-set query of `index` (app.py): room ids of bookings
with `check_in <= today` and `check_out > today`, made distinct — one pass
over the bookings table, independent of the room list. -/
def activeRoomIds (bookings : List Booking) (today : Date) : List Nat :=
  ((bookings.filter fun b =>
      decide (Date.le b.check_in today) && decide (Date.lt today b.check_out)).map
    fun b => b.room_id).dedup

/-- The optional hotel pre-filter of `index`: Python
`if selected_hotel_id:` treats both `None` and `0` as absent. -/
def filterRoomsByHotel (rooms : List Room) (selectedHotelId : Option Nat) :
    List Room :=
  match selectedHotelId with
  | some h => if h ≠ 0 then rooms.filter (fun r => r.hotel_id == h) else rooms
  | none => rooms

/-- `available_count` of `index` (app.py): the number of listed rooms whose
id is not in the active set. -/
def available_count (rooms : List Room) (bookings : List Booking)
    (today : Date) : Nat :=
  (rooms.filter fun r => !((activeRoomIds bookings today).contains r.id)).length

/-- Outcome of an admin create/edit handler: missing required fields, a
collision caught by the handler's duplicate scan, a collision caught only
by a storage UNIQUE constraint (an IntegrityError the handler does not
catch, so no flash and no stored row), or success. -/
inductive AdminResult where
  | validationError
  | duplicateEntity
  | integrityError
  | success
deriving DecidableEq, Repr

/-- Python truthiness of the parsed `hotel_id` form field:
`not hotel_id` holds for `None` and for `0`. -/
def hotelIdMissing : Option Nat → Bool
  | none => true
  | some n => n == 0

/-- The POST branch of `admin_create_room` (app.py): require a non-empty
number and type, a positive price and a hotel id, then insert the room.
The handler runs no duplicate scan; a number colliding with a stored room
trips the `rooms.number` UNIQUE constraint (models.py) at commit, an
IntegrityError the handler does not catch, and nothing is stored. -/
def admin_create_room (rooms : List Room) (number room_type : String)
    (price_per_night : Int) (capacity : Nat) (description : String)
    (hotel_id : Option Nat) (newId : Nat) : AdminResult × List Room :=
  let num := pyStrip number
  let rt := pyStrip room_type
  let desc := pyStrip description
  if num.isEmpty || rt.isEmpty || decide (price_per_night ≤ 0)
      || hotelIdMissing hotel_id then
    (.validationError, rooms)
  else if rooms.any (fun r => r.number == num) then
    (.integrityError, rooms)
  else
    (.success, rooms ++ [⟨newId, num, hotel_id.getD 0, rt, some desc,
      price_per_night, capacity⟩])

/-- The POST branch of `admin_edit_room` (app.py): the same required-field
validation; on success the room's fields are overwritten (a failed
validation is never committed, so the stored rooms are unchanged).
The handler runs no duplicate scan; a number colliding with another
stored room trips the `rooms.number` UNIQUE constraint at commit, an
IntegrityError the handler does not catch, and nothing is stored. -/
def admin_edit_room (rooms : List Room) (roomId : Nat)
    (number room_type : String) (price_per_night : Int) (capacity : Nat)
    (description : String) (hotel_id : Option Nat) : AdminResult × List Room :=
  let num := pyStrip number
  let rt := pyStrip room_type
  let desc := pyStrip description
  if num.isEmpty || rt.isEmpty || decide (price_per_night ≤ 0)
      || hotelIdMissing hotel_id then
    (.validationError, rooms)
  else if rooms.any (fun r => r.id != roomId && r.number == num) then
    (.integrityError, rooms)
  else
    (.success, rooms.map fun r =>
      if r.id == roomId then
        { r with
          number := num
          room_type := rt
          price_per_night := price_per_night
          capacity := capacity
          description := some desc
          hotel_id := hotel_id.getD 0 }
      else r)

/-- The POST branch of `admin_create_hotel` (app.py): require a non-empty
name, reject an existing hotel with the same name
(`Hotel.query.filter_by(name=name).first()`), else insert; an empty city
is stored as `None` (`city or None`). -/
def admin_create_hotel (hotels : List Hotel) (name city : String)
    (newId : Nat) : AdminResult × List Hotel :=
  let nm := pyStrip name
  let ct := pyStrip city
  if nm.isEmpty then (.validationError, hotels)
  else if hotels.any (fun h => h.name == nm) then (.duplicateEntity, hotels)
  else
    (.success, hotels ++ [⟨newId, nm, if ct.isEmpty then none else some ct⟩])

/-- The POST branch of `admin_edit_hotel` (app.py): the duplicate scan
excludes the hotel's own id (`Hotel.id != hotel.id, Hotel.name == name`)
and runs only for a non-empty name; an empty name is a validation error,
a duplicate is rejected, otherwise name and city are overwritten. -/
def admin_edit_hotel (hotels : List Hotel) (hotelId : Nat)
    (name city : String) : AdminResult × List Hotel :=
  let nm := pyStrip name
  let ct := pyStrip city
  let dup := if nm.isEmpty then false
    else hotels.any (fun h => h.id != hotelId && h.name == nm)
  if nm.isEmpty then (.validationError, hotels)
  else if dup then (.duplicateEntity, hotels)
  else
    (.success, hotels.map fun h =>
      if h.id == hotelId then
        { h with
          name := nm
          city := if ct.isEmpty then none else some ct }
      else h)

/-- The two hotels seeded by `ensure_schema_and_seed` (app.py). -/
def seedHotels : List Hotel :=
  [⟨1, "Отель Центр", some "Москва"⟩,
   ⟨2, "Городской", some "Санкт-Петербург"⟩]

/-- The three rooms seeded by `ensure_schema_and_seed` (app.py): two in the
first hotel, one in the second. -/
def seedRooms : List Room :=
  [⟨1, "101", 1, "Стандарт", some "Уютный номер в центре города.", 4500, 2⟩,
   ⟨2, "202", 1, "Делюкс", some "Просторный номер с видом на город.", 7200, 3⟩,
   ⟨3, "301", 2, "Стандарт", some "Спокойный номер рядом с набережной.", 3800, 2⟩]

/-- A room fixture reused by concrete instantiations below. -/
def room101 : Room := ⟨1, "101", 1, "Стандарт", none, 4500, 2⟩

/-- Booking fixture: room 1 occupied over `[2024-06-01, 2024-06-05)`. -/
def juneBooking : Booking := ⟨1, 7, 1, ⟨2024, 6, 1⟩, ⟨2024, 6, 5⟩, 18000⟩

/-- Fixture for the availability count: one booking active on 2024-06-02
(room 1) and one entirely in the past (room 2). -/
def fixtureBookings : List Booking :=
  [juneBooking, ⟨2, 7, 2, ⟨2024, 5, 1⟩, ⟨2024, 5, 5⟩, 28800⟩]

/-- Password verifier used in concrete login runs: plain comparison stands
in for the black-box hash check. -/
def demoCheck : String → String → Bool := fun h p => h == p

/-- A one-user table for concrete login runs. -/
def demoUsers : List User := [⟨1, "a@x.com", "Alice", "secret1", false⟩]

theorem Date.not_le_of_lt {a b : Date} (h : Date.lt a b) : ¬ Date.le b a := by
  cases a; cases b
  simp only [Date.lt, Date.le, Date.mk.injEq] at h ⊢
  omega

theorem overlapsB_eq_true {b : Booking} {rid : Nat} {ci co : Date} :
    overlapsB b rid ci co = true ↔
      b.room_id = rid ∧ Date.lt b.check_in co ∧ Date.lt ci b.check_out := by
  simp [overlapsB, Bool.and_eq_true, decide_eq_true_iff, and_assoc]

/-- C1. For every room the stored bookings carry pairwise non-overlapping
half-open `[check_in, check_out)` intervals: the invariant holds for the
empty table, is preserved by `book_room` on every outcome, and is preserved
by `delete_booking`. -/
theorem bookings_pairwise_nonoverlap :
    noOverlaps [] ∧
    (∀ bs uid room ciS coS nid, noOverlaps bs →
        noOverlaps (book_room bs uid room ciS coS nid).2) ∧
    (∀ bs bid uid, noOverlaps bs →
        noOverlaps (delete_booking bs bid uid).2) := by
  refine ⟨List.Pairwise.nil, ?_, ?_⟩
  · intro bs uid room ciS coS nid h
    unfold book_room
    cases hci : parseDate ciS with
    | none => exact h
    | some ci =>
      cases hco : parseDate coS with
      | none => exact h
      | some co =>
        dsimp only
        by_cases hle : Date.le co ci
        · rw [if_pos hle]; exact h
        · rw [if_neg hle]
          by_cases hover : bs.any (fun b => overlapsB b room.id ci co) = true
          · rw [if_pos hover]; exact h
          · rw [if_neg hover]
            show noOverlaps (bs ++ [_])
            rw [List.any_eq_true] at hover
            push_neg at hover
            unfold noOverlaps at h ⊢
            rw [List.pairwise_append]
            refine ⟨h, List.pairwise_singleton _ _, ?_⟩
            intro a ha b hb hov
            simp only [List.mem_singleton] at hb
            subst hb
            rcases hov with ⟨hr, h1, h2⟩
            exact hover a ha (overlapsB_eq_true.mpr ⟨hr, h1, h2⟩)
  · intro bs bid uid h
    unfold delete_booking
    cases hf : bs.find? (fun b => b.id == bid && b.user_id == uid) with
    | none => exact h
    | some b => exact List.Pairwise.sublist (List.filter_sublist _) h

theorem bookings_pairwise_nonoverlap_witness :
    noOverlaps
      (book_room [juneBooking] 8 room101
        (some "2024-06-05") (some "2024-06-08") 2).2 :=
  bookings_pairwise_nonoverlap.2.1 [juneBooking] 8 room101
    (some "2024-06-05") (some "2024-06-08") 2
    (by simp [noOverlaps])

theorem length_filter_not {α : Type} (p : α → Bool) (l : List α) :
    (l.filter fun a => !(p a)).length = l.length - (l.filter p).length := by
  induction l with
  | nil => rfl
  | cons a t ih =>
    have hle := List.length_filter_le p t
    cases h : p a
    · simp [List.filter_cons, h, ih]; omega
    · simp [List.filter_cons, h, ih]

/-- C4. The availability count of `index`: membership in the batch active
set is exactly having a booking with `check_in <= today < check_out`, the
displayed count is the number of listed rooms minus the number of listed
rooms in the active set, and on the three-room fixture with one active and
one past booking the count is 2. -/
theorem computeAvailableCount_spec :
    (∀ bookings today rid,
        rid ∈ activeRoomIds bookings today ↔
          ∃ b ∈ bookings, b.room_id = rid ∧ Date.le b.check_in today ∧
            Date.lt today b.check_out) ∧
    (∀ rooms bookings today,
        available_count rooms bookings today =
          rooms.length -
            (rooms.filter fun r =>
              (activeRoomIds bookings today).contains r.id).length) ∧
    available_count seedRooms fixtureBookings ⟨2024, 6, 2⟩ = 2 := by
  refine ⟨?_, ?_, by decide⟩
  · intro bookings today rid
    simp only [activeRoomIds, List.mem_dedup, List.mem_map, List.mem_filter,
      Bool.and_eq_true, decide_eq_true_iff]
    constructor
    · rintro ⟨b, ⟨hb, h1, h2⟩, hr⟩
      exact ⟨b, hb, hr, h1, h2⟩
    · rintro ⟨b, hb, hr, h1, h2⟩
      exact ⟨b, ⟨hb, h1, h2⟩, hr⟩
  · intro rooms bookings today
    exact length_filter_not _ _

/-- C5. `delete_booking` removes a booking only when it exists and belongs
to the requesting user; a missing id and a foreign-owned booking both
produce the same single not-found outcome with the storage unchanged, and
cancelling an already-cancelled booking reports not-found. -/
theorem cancelBooking_spec :
    (∀ bs bid uid, (delete_booking bs bid uid).1 = .deleted →
        ∃ b ∈ bs, b.id = bid ∧ b.user_id = uid) ∧
    (∀ bs bid uid b,
        bs.find? (fun x => x.id == bid && x.user_id == uid) = some b →
        delete_booking bs bid uid
          = (.deleted, bs.filter fun x => x.id != b.id)) ∧
    (∀ bs bid uid, (∀ b ∈ bs, ¬(b.id = bid ∧ b.user_id = uid)) →
        delete_booking bs bid uid = (.notFound, bs)) ∧
    (∀ bs bid uid b, (bs.map Booking.id).Nodup → b ∈ bs → b.id = bid →
        b.user_id ≠ uid → delete_booking bs bid uid = (.notFound, bs)) ∧
    (∀ bs bid uid uid2 bs2,
        delete_booking bs bid uid = (.deleted, bs2) →
        delete_booking bs2 bid uid2 = (.notFound, bs2)) := by
  refine ⟨?_, ?_, ?_, ?_, ?_⟩
  · intro bs bid uid h
    unfold delete_booking at h
    cases hf : bs.find? (fun x => x.id == bid && x.user_id == uid) with
    | none => rw [hf] at h; simp at h
    | some b =>
      have hmem := List.mem_of_find?_eq_some hf
      have hpred := List.find?_some hf
      simp only [Bool.and_eq_true, beq_iff_eq] at hpred
      exact ⟨b, hmem, hpred.1, hpred.2⟩
  · intro bs bid uid b hf
    unfold delete_booking
    rw [hf]
  · intro bs bid uid hno
    unfold delete_booking
    have hf : bs.find? (fun x => x.id == bid && x.user_id == uid) = none := by
      rw [List.find?_eq_none]
      intro x hx
      simp only [Bool.and_eq_true, beq_iff_eq, not_and]
      intro h1 h2
      exact hno x hx ⟨h1, h2⟩
    rw [hf]
  · intro bs bid uid b hnd hb hbid hbuid
    unfold delete_booking
    have hf : bs.find? (fun x => x.id == bid && x.user_id == uid) = none := by
      rw [List.find?_eq_none]
      intro x hx
      simp only [Bool.and_eq_true, beq_iff_eq, not_and]
      intro h1 h2
      have hxb : x = b :=
        List.inj_on_of_nodup_map hnd hx hb (by rw [h1, hbid])
      exact hbuid (by rw [← hxb, h2])
    rw [hf]
  · intro bs bid uid uid2 bs2 h
    unfold delete_booking at h ⊢
    cases hf : bs.find? (fun x => x.id == bid && x.user_id == uid) with
    | none => rw [hf] at h; simp at h
    | some b =>
      rw [hf] at h
      have hpred := List.find?_some hf
      simp only [Bool.and_eq_true, beq_iff_eq] at hpred
      injection h with h1 h2
      subst h2
      have hnone : (bs.filter fun x => x.id != b.id).find?
          (fun x => x.id == bid && x.user_id == uid2) = none := by
        rw [List.find?_eq_none]
        intro x hx
        have hxid := List.of_mem_filter hx
        simp only [bne_iff_ne, ne_eq] at hxid
        simp only [Bool.and_eq_true, beq_iff_eq, not_and]
        intro hxb
        exact absurd (hxb.trans hpred.1.symm) hxid
      rw [hnone]

theorem cancelBooking_spec_witness :
    delete_booking [juneBooking] 1 9 = (.notFound, [juneBooking]) ∧
    delete_booking [juneBooking] 1 7
      = (.deleted, [juneBooking].filter fun x => x.id != juneBooking.id) :=
  ⟨cancelBooking_spec.2.2.2.1 [juneBooking] 1 9 juneBooking
      (by decide) (by decide) (by decide) (by decide),
   cancelBooking_spec.2.1 [juneBooking] 1 7 juneBooking (by decide)⟩

/-- C6. The persisted data model has a `Hotel` entity with identity,
unique required name and optional city, and every seeded `Room` references
exactly one existing `Hotel` through its required `hotel_id`. -/
theorem hotel_data_model :
    (seedHotels.map Hotel.name).Nodup ∧
    (∀ r ∈ seedRooms, ∃ h ∈ seedHotels, h.id = r.hotel_id ∧
        ∀ h2 ∈ seedHotels, h2.id = r.hotel_id → h2 = h) := by
  decide

theorem hotel_data_model_witness :
    ∃ h ∈ seedHotels,
      h.id = (⟨1, "101", 1, "Стандарт",
        some "Уютный номер в центре города.", 4500, 2⟩ : Room).hotel_id ∧
      ∀ h2 ∈ seedHotels,
        h2.id = (⟨1, "101", 1, "Стандарт",
          some "Уютный номер в центре города.", 4500, 2⟩ : Room).hotel_id →
        h2 = h :=
  hotel_data_model.2
    ⟨1, "101", 1, "Стандарт", some "Уютный номер в центре города.", 4500, 2⟩
    (by decide)

/-- A room create that collides with the seeded room number `101` is not
rejected with the duplicate outcome: the handler runs no duplicate scan,
the insert trips the storage UNIQUE constraint at commit (an uncaught
IntegrityError), and no record is created. -/
theorem admin_room_number_not_checked :
    (admin_create_room seedRooms "101" "Делюкс" 100 2 "" (some 1) 4).1
      ≠ .duplicateEntity ∧
    admin_create_room seedRooms "101" "Делюкс" 100 2 "" (some 1) 4
      = (.integrityError, seedRooms) := by
  decide

/-- C7 (amended). Hotel-name uniqueness is checked on both the create and
the edit admin operation, the edit-path scan excluding the hotel's own
identity: a colliding hotel request is rejected with the duplicate outcome
and no record is created or modified.  The room create/edit handlers run
no duplicate scan and never produce the duplicate outcome; a colliding
room number instead trips the storage UNIQUE constraint at commit — an
uncaught IntegrityError — and no record is created or modified. -/
theorem admin_uniqueness_checks :
    (∀ hotels name city nid,
        (pyStrip name).isEmpty = false →
        (∃ h ∈ hotels, h.name = pyStrip name) →
        admin_create_hotel hotels name city nid = (.duplicateEntity, hotels)) ∧
    (∀ hotels hid name city,
        (pyStrip name).isEmpty = false →
        (∃ h ∈ hotels, h.id ≠ hid ∧ h.name = pyStrip name) →
        admin_edit_hotel hotels hid name city = (.duplicateEntity, hotels)) ∧
    (∀ rooms number rt price cap desc hid nid,
        (admin_create_room rooms number rt price cap desc hid nid).1
          ≠ .duplicateEntity) ∧
    (∀ rooms rid number rt price cap desc hid,
        (admin_edit_room rooms rid number rt price cap desc hid).1
          ≠ .duplicateEntity) ∧
    (∀ rooms number rt price cap desc hid nid,
        (pyStrip number).isEmpty = false → (pyStrip rt).isEmpty = false →
        0 < price → hotelIdMissing hid = false →
        (∃ r ∈ rooms, r.number = pyStrip number) →
        admin_create_room rooms number rt price cap desc hid nid
          = (.integrityError, rooms)) ∧
    (∀ rooms rid number rt price cap desc hid,
        (pyStrip number).isEmpty = false → (pyStrip rt).isEmpty = false →
        0 < price → hotelIdMissing hid = false →
        (∃ r ∈ rooms, r.id ≠ rid ∧ r.number = pyStrip number) →
        admin_edit_room rooms rid number rt price cap desc hid
          = (.integrityError, rooms)) := by
  refine ⟨?_, ?_, ?_, ?_, ?_, ?_⟩
  · intro hotels name city nid hne hdup
    have hany : (hotels.any fun h => h.name == pyStrip name) = true := by
      rw [List.any_eq_true]
      obtain ⟨h, hh, he⟩ := hdup
      exact ⟨h, hh, by simp [he]⟩
    simp [admin_create_hotel, hne, hany]
  · intro hotels hid name city hne hdup
    have hany : (hotels.any fun h => h.id != hid && h.name == pyStrip name)
        = true := by
      rw [List.any_eq_true]
      obtain ⟨h, hh, hne2, he⟩ := hdup
      exact ⟨h, hh, by simp [he, hne2]⟩
    simp [admin_edit_hotel, hne, hany]
  · intro rooms number rt price cap desc hid nid
    unfold admin_create_room
    dsimp only
    split_ifs <;> simp
  · intro rooms rid number rt price cap desc hid
    unfold admin_edit_room
    dsimp only
    split_ifs <;> simp
  · intro rooms number rt price cap desc hid nid hn hr hp hh hdup
    have hany : (rooms.any fun r => r.number == pyStrip number) = true := by
      rw [List.any_eq_true]
      obtain ⟨r, hrm, he⟩ := hdup
      exact ⟨r, hrm, by simp [he]⟩
    have hple : decide (price ≤ 0) = false := decide_eq_false (not_le.mpr hp)
    simp [admin_create_room, hn, hr, hple, hh, hany]
  · intro rooms rid number rt price cap desc hid hn hr hp hh hdup
    have hany : (rooms.any fun r => r.id != rid && r.number == pyStrip number)
        = true := by
      rw [List.any_eq_true]
      obtain ⟨r, hrm, hne2, he⟩ := hdup
      exact ⟨r, hrm, by simp [he, hne2]⟩
    have hple : decide (price ≤ 0) = false := decide_eq_false (not_le.mpr hp)
    simp [admin_edit_room, hn, hr, hple, hh, hany]

theorem admin_uniqueness_checks_witness :
    admin_create_hotel seedHotels "Городской" "Казань" 3
      = (.duplicateEntity, seedHotels) ∧
    admin_edit_hotel seedHotels 1 "Городской" ""
      = (.duplicateEntity, seedHotels) ∧
    admin_create_room seedRooms "202" "Делюкс" 100 2 "" (some 1) 4
      = (.integrityError, seedRooms) :=
  ⟨admin_uniqueness_checks.1 seedHotels "Городской" "Казань" 3 (by decide)
      ⟨⟨2, "Городской", some "Санкт-Петербург"⟩, by decide, by decide⟩,
   admin_uniqueness_checks.2.1 seedHotels 1 "Городской" "" (by decide)
      ⟨⟨2, "Городской", some "Санкт-Петербург"⟩, by decide, by decide,
        by decide⟩,
   admin_uniqueness_checks.2.2.2.2.1 seedRooms "202" "Делюкс" 100 2 ""
      (some 1) 4 (by decide) (by decide) (by decide) (by decide)
      ⟨⟨2, "202", 1, "Делюкс", some "Просторный номер с видом на город.",
          7200, 3⟩, by decide, by decide⟩⟩

theorem login_failure_message {cp : String → String → Bool}
    {users : List User} {e p m : String}
    (h : login cp users e p = .failure m) : m = generic_login_failure := by
  unfold login at h
  cases hf : users.find? (fun u => u.email == pyLower (pyStrip e)) with
  | none =>
    rw [hf] at h
    injection h with h
    exact h.symm
  | some u =>
    rw [hf] at h
    dsimp only at h
    by_cases hc : cp u.password_hash p = true
    · rw [if_pos hc] at h
      cases h
    · rw [if_neg hc] at h
      injection h with h
      exact h.symm

/-- C8. Two-run indistinguishability of login failure: any two failed
login attempts — unknown email, or known email with a wrong password —
produce the identical single generic message. -/
theorem login_failure_indistinguishable :
    ∀ cp users e1 p1 e2 p2 m1 m2,
      login cp users e1 p1 = .failure m1 →
      login cp users e2 p2 = .failure m2 → m1 = m2 := by
  intro cp users e1 p1 e2 p2 m1 m2 h1 h2
  rw [login_failure_message h1, login_failure_message h2]

theorem login_failure_indistinguishable_witness :
    login demoCheck demoUsers "b@x.com" "secret1"
      = .failure generic_login_failure ∧
    login demoCheck demoUsers " A@x.com " "wrong"
      = .failure generic_login_failure ∧
    generic_login_failure = generic_login_failure :=
  ⟨by decide, by decide,
   login_failure_indistinguishable demoCheck demoUsers "b@x.com" "secret1"
     " A@x.com " "wrong" generic_login_failure generic_login_failure
     (by decide) (by decide)⟩

/-- C9. `book_room` places no lower bound on the dates relative to the
current day: for any reference day, well-formed dates with
`checkIn < checkOut` and no overlap are accepted and inserted even when
the whole stay lies strictly in the past. -/
theorem createBooking_no_lower_date_bound :
    ∀ (today : Date) bs uid room ciS coS nid ci co,
      parseDate ciS = some ci → parseDate coS = some co →
      Date.lt ci co → Date.lt co today →
      bs.any (fun b => overlapsB b room.id ci co) = false →
      book_room bs uid room ciS coS nid
        = (.success, bs ++ [⟨nid, uid, room.id, ci, co,
            dateDiffDays co ci * room.price_per_night⟩]) := by
  intro today bs uid room ciS coS nid ci co hci hco hlt hpast hover
  unfold book_room
  rw [hci, hco]
  dsimp only
  rw [if_neg (Date.not_le_of_lt hlt), if_neg (by simp [hover])]

theorem createBooking_no_lower_date_bound_witness :
    book_room [] 7 room101 (some "2020-01-01") (some "2020-01-05") 1
      = (.success, [] ++ [⟨1, 7, room101.id, ⟨2020, 1, 1⟩, ⟨2020, 1, 5⟩,
          dateDiffDays ⟨2020, 1, 5⟩ ⟨2020, 1, 1⟩ * room101.price_per_night⟩]) :=
  createBooking_no_lower_date_bound ⟨2026, 10, 12⟩ [] 7 room101
    (some "2020-01-01") (some "2020-01-05") 1 ⟨2020, 1, 1⟩ ⟨2020, 1, 5⟩
    (by decide) (by decide) (by decide) (by decide) (by decide)

/-- C10. A missing `check_in` or `check_out` form field (`None`) fails the
parse step with the same invalid-format rejection as a malformed string,
and no booking is inserted. -/
theorem createBooking_missing_field :
    ∀ bs uid room ciS coS nid,
      ciS = none ∨ coS = none →
      book_room bs uid room ciS coS nid = (.invalidDateFormat, bs) := by
  intro bs uid room ciS coS nid h
  unfold book_room
  rcases h with h | h <;> subst h
  · rfl
  · cases parseDate ciS <;> rfl

theorem createBooking_missing_field_witness :
    book_room [] 7 room101 none (some "2024-06-05") 1
      = (.invalidDateFormat, []) :=
  createBooking_missing_field [] 7 room101 none (some "2024-06-05") 1
    (Or.inl rfl)

end HotelBooking
